import Mathlib

/-!
Verification of the `data-eng-utn` pipeline repository: a shallow embedding of
`src/loaders.py`, `src/transformers.py`, `src/pipelines.py`, `src/extractors.py`
and `src/config.py`, with theorems settling the behavioural claims about the
load strategies, the aggregation engine, the orchestrator, the historical
extractor's date guard and the city-coordinate lookup.

Modelling conventions:
* pandas DataFrames become `DF` values: an explicit column list plus rows as
  association lists from column name to `Value` (strings, rationals, a
  coordinate pair, or null).  Python floats are modelled as rationals.
* The Delta Lake store is external to the repository; a loader-level table
  store is a path-keyed association list of tables, and the store's `merge`
  (which may fail for any reason whatsoever) is passed in as a function
  returning `Except`.
* Python exceptions become `Except`/`Option` results.
-/

set_option autoImplicit false

/-! ## Loader-level tables (`src/loaders.py`)

A loader row is an association list from column name to a (string) cell value;
a loader table is a list of rows; the store maps paths to tables. -/

abbrev LRow := List (String × String)

abbrev LTable := List LRow

abbrev TableStore := List (String × LTable)

/-- Errors surfaced by the loader methods: `invalidPartitionSpec` stands for the
`ValueError`s raised by `insert_overwrite`'s validation, `keyError` for a pandas
column access on a missing column, `indexError` for `.iloc[0]` on an empty
frame. -/
inductive LoaderErr
  | invalidPartitionSpec (msg : String)
  | keyError (col : String)
  | indexError
deriving DecidableEq

/-- Store calls performed by `DeltaLakeLoader.merge_upsert`: either the merge
builder was executed against the existing table, or a fresh unconditioned
`write_deltalake` of the whole batch happened. -/
inductive LoadEffect
  | mergeExecuted (path : String) (predicate : String)
  | unconditionedWrite (path : String) (rows : LTable) (partitionBy : List String)
deriving DecidableEq

/-- Replace the table stored at `path` (first occurrence), or add it at the end
when absent — the observable effect of a `write_deltalake` call on the store. -/
def setTable : TableStore → String → LTable → TableStore
  | [], path, t => [(path, t)]
  | e :: ts, path, t => if e.1 = path then (path, t) :: ts else e :: setTable ts path t

/-- `DeltaLakeLoader.merge_upsert` (src/loaders.py:13-45): inside a `try`,
open the Delta table at `path` (this raises when no table exists there) and run
the store's merge with matched-update-all / not-matched-insert-all; on ANY
exception the `except` branch performs an unconditioned `write_deltalake` of the
whole batch.  The external store's merge outcome is supplied by `storeMerge`
(spec §4.1 treats the store as a black box whose merge may fail for any
reason).  The function returns the store calls the loader performed. -/
def merge_upsert (tables : TableStore) (table_root_path location : String)
    (data : LTable) (predicate : String) (partition_by : List String)
    (storeMerge : LTable → LTable → String → Except String LTable) : List LoadEffect :=
  let path := table_root_path ++ "/" ++ location
  match tables.lookup path with
  | none => [.unconditionedWrite path data partition_by]
  | some tgt =>
    match storeMerge tgt data predicate with
    | .ok _ => [.mergeExecuted path predicate]
    | .error _ => [.unconditionedWrite path data partition_by]

/-- `DeltaLakeLoader.delete_insert` (src/loaders.py:47-76): take `filter_value`
from the batch's first row at `filter_col`; when a Delta table exists at the
path, read it and, when any existing row has `filter_col` equal to
`filter_value`, delete all rows satisfying the predicate
`filter_col = filter_value` (modelled by filtering them out); then always append
the batch (`write_deltalake` with append mode creates the table when absent).
Returns the resulting store. -/
def delete_insert (tables : TableStore) (table_root_path location : String)
    (data : LTable) (filter_col : String) : Except LoaderErr TableStore :=
  let path := table_root_path ++ "/" ++ location
  match data.head? with
  | none => .error .indexError
  | some r0 =>
    match r0.lookup filter_col with
    | none => .error (.keyError filter_col)
    | some filter_value =>
      let tables :=
        match tables.lookup path with
        | some existing_data =>
          if existing_data.any (fun r => r.lookup filter_col == some filter_value) then
            setTable tables path
              (existing_data.filter (fun r => ! (r.lookup filter_col == some filter_value)))
          else tables
        | none => tables
      .ok (setTable tables path (((tables.lookup path).getD []) ++ data))

/-- The single overwrite call `insert_overwrite` hands to the store:
`write_deltalake(path, data, mode="overwrite", partition_by, predicate)`.  The
predicate string `f"{filter_col} = '{partition_value}'"` is modelled
structurally as the pair (column, value). -/
structure OverwriteCall where
  path : String
  mode : String
  partition_by : List String
  predicate : String × String
  rows : LTable
deriving DecidableEq

/-- Python `set(a) == set(b)` on two lists of column names. -/
def setEqList (a b : List String) : Bool :=
  a.all (fun x => b.contains x) && b.all (fun x => a.contains x)

/-- `DeltaLakeLoader.insert_overwrite` (src/loaders.py:78-103): raise
`ValueError` when `set(partition_by) == set(data.columns)`; raise `ValueError`
when `filter_col` is not in `partition_by`; otherwise take `partition_value`
from the batch's first row, build the predicate `filter_col = partition_value`
and call `write_deltalake` in overwrite mode with that predicate.  The batch's
column list is `dataCols`; on success the performed overwrite call is
returned. -/
def insert_overwrite (table_root_path location : String) (dataCols : List String)
    (data : LTable) (partition_by : List String) (filter_col : String) :
    Except LoaderErr OverwriteCall :=
  let path := table_root_path ++ "/" ++ location
  if setEqList partition_by dataCols then
    .error (.invalidPartitionSpec "partition_by columns are not present in data columns.")
  else if ! partition_by.contains filter_col then
    .error (.invalidPartitionSpec "filter_column must be a valid partition")
  else
    match data.head? with
    | none => .error .indexError
    | some r0 =>
      match r0.lookup filter_col with
      | none => .error (.keyError filter_col)
      | some partition_value =>
        .ok ⟨path, "overwrite", partition_by, (filter_col, partition_value), data⟩

/-! ## Gold-layer row scoring (`src/transformers.py`, ForecastCombinedTransformer) -/

/-- `ForecastCombinedTransformer._calculate_health_alert`
(src/transformers.py:260-272). -/
def calculate_health_alert (aqi temp : ℚ) : String :=
  if aqi ≥ 75 then "HIGH_ALERT"
  else if aqi ≥ 50 ∧ (temp > 30 ∨ temp < 10) then "MODERATE_ALERT"
  else if aqi ≥ 50 ∨ temp > 35 ∨ temp < 5 then "LOW_ALERT"
  else "GOOD"

/-- The health-alert classification as worded in the spec (§4.3), for
comparison with the code's `calculate_health_alert`. -/
def healthAlertSpec (aqi temp : ℚ) : String :=
  if aqi ≥ 75 then "HIGH_ALERT"
  else if aqi ≥ 50 ∧ (temp > 30 ∨ temp < 10) then "MODERATE_ALERT"
  else if aqi ≥ 50 ∨ temp > 35 ∨ temp < 5 then "LOW_ALERT"
  else "GOOD"

/-- `ForecastCombinedTransformer._calculate_allergy_risk`
(src/transformers.py:274-285). -/
def calculate_allergy_risk (pm25 pm10 wind : ℚ) : String :=
  if pm10 > 50 ∧ wind > 20 then "HIGH"
  else if pm25 > 15 ∨ (pm10 > 30 ∧ wind > 10) then "MODERATE"
  else "LOW"

/-- The allergy-risk classification as worded in the spec (§4.3), for
comparison with the code's `calculate_allergy_risk`. -/
def allergyRiskSpec (pm25 pm10 wind : ℚ) : String :=
  if pm10 > 50 ∧ wind > 20 then "HIGH"
  else if pm25 > 15 ∨ (pm10 > 30 ∧ wind > 10) then "MODERATE"
  else "LOW"

/-- Python `int(q)` on a rational: truncation toward zero. -/
def pyTrunc (q : ℚ) : ℤ :=
  if q < 0 then ⌈q⌉ else ⌊q⌋

/-- `ForecastCombinedTransformer._calculate_outdoor_score`
(src/transformers.py:287-304): start the score at 100, subtract the AQI,
temperature, rain and wind penalties step by step, then return
`max(0, min(100, int(score)))`. -/
def calculate_outdoor_score (aqi temp precip wind : ℚ) : ℤ :=
  let score : ℚ := 100
  let score := score - aqi * (1/2)
  let score :=
    if temp > 30 then score - (temp - 30) * 2
    else if temp < 15 then score - (15 - temp) * (3/2)
    else score
  let score := if precip > 0 then score - min 20 (precip * 10) else score
  let score := if wind > 30 then score - (wind - 30) else score
  max 0 (min 100 (pyTrunc score))

/-- The outdoor-score computation as worded in the spec (§4.3): one clamped
expression with the four penalties, for comparison with the code's
`calculate_outdoor_score`. -/
def outdoorScoreSpec (aqi temp precip wind : ℚ) : ℤ :=
  max 0 (min 100 (pyTrunc (100 - aqi * (1/2)
    - (if temp > 30 then (temp - 30) * 2 else if temp < 15 then (15 - temp) * (3/2) else 0)
    - (if precip > 0 then min 20 (precip * 10) else 0)
    - (if wind > 30 then wind - 30 else 0))))

/-- `AirQualityDailyTransformer`'s AQI lambda (src/transformers.py:164-166):
`min(100, (x / 25.0) * 100)` on a non-null value, `None` on a null one.  The
argument is `Option`-typed to model pandas nullability. -/
def aqiSimplifiedOfPm25 (x : Option ℚ) : Option ℚ :=
  match x with
  | some v => some (min 100 (v / 25 * 100))
  | none => none

/-! ## Historical extractor constructor (`src/extractors.py`) -/

/-- The mutable HTTP channel state an extractor touches: the session's query
parameters (set by the base constructor to the coordinates) and the request's
parameters (where `HistoricalExtractor` stores the date range). -/
structure HttpChannels where
  sessionParams : List (String × ℚ)
  requestParams : List (String × ℤ)
deriving DecidableEq

/-- Set one request parameter, replacing an existing entry for the key. -/
def setParam : List (String × ℤ) → String → ℤ → List (String × ℤ)
  | [], k, v => [(k, v)]
  | p :: ps, k, v => if p.1 = k then (k, v) :: ps else p :: setParam ps k v

/-- `BaseExractor.__init__` (src/extractors.py:19-27, class name as in the
source): store the coordinates and assign the session's params dict to the
longitude/latitude pair.  Dates are modelled as integers (day numbers), so only
their ordering matters. -/
def BaseExractor.init (ch : HttpChannels) (longitude latitude : ℚ) : HttpChannels :=
  ⟨[("longitude", longitude), ("latitude", latitude)], ch.requestParams⟩

/-- `HistoricalExtractor.__init__` (src/extractors.py:92-104): run the base
constructor, then raise `ValueError` when `start_date > end_date` (returned as
`some errorMessage` alongside the channel state at that point), otherwise write
`start_date` and `end_date` into the request parameters and succeed. -/
def HistoricalExtractor.init (ch : HttpChannels) (start_date end_date : ℤ)
    (longitude latitude : ℚ) : HttpChannels × Option String :=
  let ch := BaseExractor.init ch longitude latitude
  if start_date > end_date then
    (ch, some "start_date must be earlier than or equal to end_date")
  else
    (⟨ch.sessionParams,
      setParam (setParam ch.requestParams "start_date" start_date) "end_date" end_date⟩,
     none)

/-! ## City-coordinate lookup (`src/pipelines.py`, `src/config.py`)

Python strings are modelled as lists of Unicode code points, so `str.lower` and
`str.strip` are ordinary list functions. -/

/-- `str.lower` on one ASCII code point. -/
def pyLowerChar (n : ℕ) : ℕ :=
  if 65 ≤ n ∧ n ≤ 90 then n + 32 else n

/-- `str.lower` on a whole string. -/
def pyLower (s : List ℕ) : List ℕ :=
  s.map pyLowerChar

/-- Python whitespace as stripped by `str.strip` (ASCII part). -/
def pyIsSpace (n : ℕ) : Bool :=
  n == 32 || n == 9 || n == 10 || n == 11 || n == 12 || n == 13

/-- `str.strip`: drop whitespace from both ends. -/
def pyStrip (s : List ℕ) : List ℕ :=
  ((s.dropWhile pyIsSpace).reverse.dropWhile pyIsSpace).reverse

/-- Code points of a Lean string literal, used to spell out registry keys. -/
def strCodes (s : String) : List ℕ :=
  s.data.map Char.toNat

/-- One registry entry of `CITIES_COORDINATES_MAP` (src/config.py). -/
structure Coordinates where
  longitude : ℚ
  latitude : ℚ
deriving DecidableEq

/-- `CITIES_COORDINATES_MAP` (src/config.py:34-91), the full static registry. -/
def CITIES_COORDINATES_MAP : List (List ℕ × Coordinates) :=
  [ (strCodes "buenos_aires", ⟨-58417309/1000000, -34611778/1000000⟩),
    (strCodes "cordoba", ⟨-64181056/1000000, -31413500/1000000⟩),
    (strCodes "rosario", ⟨-60639321/1000000, -32944242/1000000⟩),
    (strCodes "mendoza", ⟨-68827171/1000000, -32889458/1000000⟩),
    (strCodes "san_miguel_de_tucuman", ⟨-65209747/1000000, -26808285/1000000⟩),
    (strCodes "salta", ⟨-65411596/1000000, -24782127/1000000⟩),
    (strCodes "santa_fe", ⟨-60699889/1000000, -31624176/1000000⟩),
    (strCodes "san_juan", ⟨-68536850/1000000, -31537450/1000000⟩),
    (strCodes "resistencia", ⟨-58983890/1000000, -27451233/1000000⟩),
    (strCodes "corrientes", ⟨-58834413/1000000, -27469770/1000000⟩),
    (strCodes "posadas", ⟨-55896240/1000000, -27367030/1000000⟩),
    (strCodes "bahia_blanca", ⟨-62265610/1000000, -38718430/1000000⟩),
    (strCodes "mar_del_plata", ⟨-57557543/1000000, -38002297/1000000⟩),
    (strCodes "neuquen", ⟨-68059053/1000000, -38951650/1000000⟩) ]

/-- `get_city_coordinates` (src/pipelines.py:38-42): normalize the name with
`.lower().strip()` and index the registry; a missing key is a Python `KeyError`,
modelled as `none`. -/
def get_city_coordinates (city_name : List ℕ) : Option Coordinates :=
  let city_name := pyStrip (pyLower city_name)
  CITIES_COORDINATES_MAP.lookup city_name

/-! ## DataFrame model for the aggregation engine (`src/transformers.py`)

A cell is a string, a rational number, a coordinate pair (the
`station_coordinates` tuples) or null; a row is an association list from
column name to cell; a frame carries its column list plus its rows. -/

inductive Value
  | null
  | str (s : String)
  | num (q : ℚ)
  | coords (lat lon : ℚ)
deriving DecidableEq

abbrev Row := List (String × Value)

structure DF where
  cols : List String
  rows : List Row
deriving DecidableEq

/-- Cell access with pandas-style null for a missing column. -/
def cellD (r : Row) (c : String) : Value :=
  (r.lookup c).getD .null

/-- Numeric cell access (defaults to 0; the transformer rows built by the code
always carry numbers in the columns read this way). -/
def cellNum (r : Row) (c : String) : ℚ :=
  match r.lookup c with
  | some (.num q) => q
  | _ => 0

/-- `df['c'] = v` on one row: replace the cell when the column exists, append
the column otherwise. -/
def setCell : Row → String → Value → Row
  | [], c, v => [(c, v)]
  | p :: r, c, v => if p.1 = c then (c, v) :: r else p :: setCell r c v

/-- `df[df['city'] == self.city]` guarded by `if self.city:`
(the common head of every `transform`). -/
def filterCity (df : DF) (city : Option String) : DF :=
  match city with
  | none => df
  | some c => ⟨df.cols, df.rows.filter (fun r => r.lookup "city" == some (.str c))⟩

/-- `.dt.date` after `pd.to_datetime` on an ISO `YYYY-MM-DD HH:MM` string:
the date is the 10-character prefix. -/
def dateOfTime : Value → Value
  | .str s => .str (s.take 10)
  | _ => .null

/-- `.dt.hour` on an ISO timestamp string: the hour field after the date. -/
def hourOfTime : Value → Value
  | .str s =>
    match ((s.drop 11).take 2).toNat? with
    | some n => .num n
    | none => .null
  | _ => .null

/-- `station_coordinates[0]` (latitude). -/
def coordLat : Value → Value
  | .coords a _ => .num a
  | _ => .null

/-- `station_coordinates[1]` (longitude). -/
def coordLon : Value → Value
  | .coords _ b => .num b
  | _ => .null

/-- Pandas aggregation operators used by the transformers' `.agg` calls. -/
inductive AggOp
  | amin
  | amax
  | amean
  | asum
  | afirst
  | anunique
deriving DecidableEq

/-- The numeric values of a cell list (pandas aggregations skip nulls). -/
def numsOf (vs : List Value) : List ℚ :=
  vs.filterMap (fun v => match v with | .num q => some q | _ => none)

def qlistMin : List ℚ → ℚ
  | [] => 0
  | q :: qs => qs.foldl min q

def qlistMax : List ℚ → ℚ
  | [] => 0
  | q :: qs => qs.foldl max q

def qlistSum (l : List ℚ) : ℚ :=
  l.foldl (fun a b => a + b) 0

def qlistMean (l : List ℚ) : ℚ :=
  if l.length = 0 then 0 else qlistSum l / (l.length : ℚ)

def applyAggOp : AggOp → List Value → Value
  | .amin, vs => .num (qlistMin (numsOf vs))
  | .amax, vs => .num (qlistMax (numsOf vs))
  | .amean, vs => .num (qlistMean (numsOf vs))
  | .asum, vs => .num (qlistSum (numsOf vs))
  | .afirst, vs => (vs.head?).getD .null
  | .anunique, vs => .num ((vs.eraseDups).length : ℚ)

/-- One entry of a `.agg({...})` dictionary together with the flattened output
column name the transformer assigns right after `reset_index()`. -/
structure AggSpec where
  col : String
  op : AggOp
  outName : String

/-- The tuple of key cells of a row. -/
def keyOf (keys : List String) (r : Row) : List (Option Value) :=
  keys.map (fun k => r.lookup k)

/-- Distinct key tuples in first-appearance order. -/
def uniqueKeysOf (keys : List String) (rows : List Row) : List (List (Option Value)) :=
  rows.foldl (fun acc r => let k := keyOf keys r; if acc.contains k then acc else acc ++ [k]) []

/-- `groupby(keys).agg(specs).reset_index()` with the renamed output columns:
one output row per distinct key tuple, holding the key columns and each
aggregated column. -/
def groupAgg (keys : List String) (specs : List AggSpec) (rows : List Row) : List Row :=
  (uniqueKeysOf keys rows).map (fun k =>
    let grp := rows.filter (fun r => keyOf keys r == k)
    (List.zip keys k).filterMap (fun p => p.2.map (fun v => (p.1, v)))
      ++ specs.map (fun s => (s.outName, applyAggOp s.op (grp.filterMap (fun r => r.lookup s.col)))))

/-- The shared weather-row enrichment (date, latitude, longitude, geohash).
`gh` is the external `pygeohash.encode` at precision 7 (spec §4.3 treats it as
a deterministic pure capability). -/
def enrichGeoRow (gh : ℚ → ℚ → String) (r : Row) : Row :=
  let r := setCell r "date" (dateOfTime (cellD r "time"))
  let r := setCell r "latitude" (coordLat (cellD r "station_coordinates"))
  let r := setCell r "longitude" (coordLon (cellD r "station_coordinates"))
  setCell r "geohash"
    (match cellD r "latitude", cellD r "longitude" with
     | .num la, .num lo => .str (gh la lo)
     | _, _ => .null)

def valSub : Value → Value → Value
  | .num a, .num b => .num (a - b)
  | _, _ => .null

def weatherAggSpecs : List AggSpec :=
  [ ⟨"temperature_2m", .amin, "temp_min"⟩,
    ⟨"temperature_2m", .amax, "temp_max"⟩,
    ⟨"temperature_2m", .amean, "temp_avg"⟩,
    ⟨"precipitation", .asum, "total_precipitation"⟩,
    ⟨"windspeed_10m", .amean, "avg_windspeed"⟩,
    ⟨"latitude", .afirst, "latitude"⟩,
    ⟨"longitude", .afirst, "longitude"⟩,
    ⟨"date_retrieved", .afirst, "date_retrieved"⟩ ]

/-- The documented output schema of `WeatherSummaryTransformer.transform`
(src/transformers.py:59-64 and 86-91). -/
def weatherSummaryCols : List String :=
  ["date", "city", "geohash", "temp_min", "temp_max", "temp_avg",
   "total_precipitation", "avg_windspeed", "latitude", "longitude",
   "date_retrieved", "temp_range"]

/-- `WeatherSummaryTransformer.transform` (src/transformers.py:53-96): filter
by city, short-circuit to the schema-correct empty frame on empty input,
otherwise enrich, group by (date, city, geohash), aggregate and derive
`temp_range`. -/
def WeatherSummaryTransformer.transform (gh : ℚ → ℚ → String) (historical : DF)
    (city : Option String) : DF :=
  let df := filterCity historical city
  if df.rows.isEmpty then ⟨weatherSummaryCols, []⟩
  else
    let rows := df.rows.map (enrichGeoRow gh)
    let agg := groupAgg ["date", "city", "geohash"] weatherAggSpecs rows
    let agg := agg.map (fun r =>
      setCell r "temp_range" (valSub (cellD r "temp_max") (cellD r "temp_min")))
    ⟨weatherSummaryCols, agg⟩

def airQualityAggSpecs : List AggSpec :=
  [ ⟨"pm10", .amin, "pm10_min"⟩,
    ⟨"pm10", .amax, "pm10_max"⟩,
    ⟨"pm10", .amean, "pm10_avg"⟩,
    ⟨"pm2_5", .amin, "pm2_5_min"⟩,
    ⟨"pm2_5", .amax, "pm2_5_max"⟩,
    ⟨"pm2_5", .amean, "pm2_5_avg"⟩,
    ⟨"carbon_monoxide", .amin, "co_min"⟩,
    ⟨"carbon_monoxide", .amax, "co_max"⟩,
    ⟨"carbon_monoxide", .amean, "co_avg"⟩,
    ⟨"latitude", .afirst, "latitude"⟩,
    ⟨"longitude", .afirst, "longitude"⟩,
    ⟨"date_retrieved", .afirst, "date_retrieved"⟩ ]

/-- The documented output schema of `AirQualityDailyTransformer.transform`
(src/transformers.py:123-128 and 150-156 plus the appended column). -/
def airQualityDailyCols : List String :=
  ["date", "city", "geohash", "pm10_min", "pm10_max", "pm10_avg",
   "pm2_5_min", "pm2_5_max", "pm2_5_avg", "co_min", "co_max", "co_avg",
   "latitude", "longitude", "date_retrieved", "aqi_simplified"]

/-- The AQI lambda lifted to a cell. -/
def aqiSimplifiedVal : Value → Value
  | .num x => .num (min 100 (x / 25 * 100))
  | _ => .null

/-- `AirQualityDailyTransformer.transform` (src/transformers.py:117-170). -/
def AirQualityDailyTransformer.transform (gh : ℚ → ℚ → String) (air_quality : DF)
    (city : Option String) : DF :=
  let df := filterCity air_quality city
  if df.rows.isEmpty then ⟨airQualityDailyCols, []⟩
  else
    let rows := df.rows.map (enrichGeoRow gh)
    let agg := groupAgg ["date", "city", "geohash"] airQualityAggSpecs rows
    let agg := agg.map (fun r =>
      setCell r "aqi_simplified" (aqiSimplifiedVal (cellD r "pm2_5_avg")))
    ⟨airQualityDailyCols, agg⟩

/-- `WeatherForecastTransformer.transform` (src/transformers.py:191-234); the
body replays `WeatherSummaryTransformer.transform` over the forecast table. -/
def WeatherForecastTransformer.transform (gh : ℚ → ℚ → String) (forecast : DF)
    (city : Option String) : DF :=
  let df := filterCity forecast city
  if df.rows.isEmpty then ⟨weatherSummaryCols, []⟩
  else
    let rows := df.rows.map (enrichGeoRow gh)
    let agg := groupAgg ["date", "city", "geohash"] weatherAggSpecs rows
    let agg := agg.map (fun r =>
      setCell r "temp_range" (valSub (cellD r "temp_max") (cellD r "temp_min")))
    ⟨weatherSummaryCols, agg⟩

def hourlyAggSpecs : List AggSpec :=
  [ ⟨"temperature_2m", .amin, "temp_min"⟩,
    ⟨"temperature_2m", .amax, "temp_max"⟩,
    ⟨"temperature_2m", .amean, "temp_avg"⟩,
    ⟨"precipitation", .amean, "precipitation_avg"⟩,
    ⟨"windspeed_10m", .amean, "windspeed_avg"⟩,
    ⟨"date", .anunique, "days_count"⟩ ]

/-- The documented output schema of
`HourlyHistoricalAnalysisTransformer.transform` (src/transformers.py:379-382
and 395-400). -/
def hourlyCols : List String :=
  ["hour", "city", "temp_min", "temp_max", "temp_avg",
   "precipitation_avg", "windspeed_avg", "days_count"]

/-- `HourlyHistoricalAnalysisTransformer.transform`
(src/transformers.py:372-402). -/
def HourlyHistoricalAnalysisTransformer.transform (historical : DF)
    (city : Option String) : DF :=
  let df := filterCity historical city
  if df.rows.isEmpty then ⟨hourlyCols, []⟩
  else
    let rows := df.rows.map (fun r =>
      let r := setCell r "hour" (hourOfTime (cellD r "time"))
      setCell r "date" (dateOfTime (cellD r "time")))
    ⟨hourlyCols, groupAgg ["hour", "city"] hourlyAggSpecs rows⟩

/-- The documented output schema of `ForecastCombinedTransformer.transform`
(src/transformers.py:315-321). -/
def forecastCombinedCols : List String :=
  ["date", "city", "geohash", "temp_min", "temp_max", "temp_avg", "temp_range",
   "total_precipitation", "avg_windspeed", "pm10_avg", "pm2_5_avg", "co_avg",
   "aqi_simplified", "health_alert", "allergy_risk", "outdoor_score",
   "latitude", "longitude", "date_retrieved"]

/-- The `pd.merge` join keys. -/
def mergeKeys : List String := ["date", "city"]

/-- Column renaming done by a `pd.merge(..., suffixes=('_weather','_air'))`:
non-key columns present on both sides get their side's suffix. -/
def joinRows (leftCols rightCols : List String) (ra rb : Row) : Row :=
  ra.map (fun p =>
    if mergeKeys.contains p.1 then p
    else if rightCols.contains p.1 then (p.1 ++ "_weather", p.2) else p)
  ++ (rb.filter (fun p => ! mergeKeys.contains p.1)).map (fun p =>
    if leftCols.contains p.1 then (p.1 ++ "_air", p.2) else p)

/-- Inner `pd.merge` on `(date, city)` with the weather/air suffixes. -/
def innerMerge (a b : DF) : List Row :=
  a.rows.flatMap (fun ra =>
    (b.rows.filter (fun rb =>
      ra.lookup "date" == rb.lookup "date" && ra.lookup "city" == rb.lookup "city")).map
      (joinRows a.cols b.cols ra))

/-- The column selection plus `rename` of `ForecastCombinedTransformer`
(src/transformers.py:331-347), as (source, target) pairs. -/
def combinedSelect : List (String × String) :=
  [("date", "date"), ("city", "city"), ("geohash_weather", "geohash"),
   ("temp_min", "temp_min"), ("temp_max", "temp_max"), ("temp_avg", "temp_avg"),
   ("temp_range", "temp_range"), ("total_precipitation", "total_precipitation"),
   ("avg_windspeed", "avg_windspeed"), ("pm10_avg", "pm10_avg"),
   ("pm2_5_avg", "pm2_5_avg"), ("co_avg", "co_avg"),
   ("aqi_simplified", "aqi_simplified"), ("latitude_weather", "latitude"),
   ("longitude_weather", "longitude"), ("date_retrieved_weather", "date_retrieved")]

def selectRename (pairs : List (String × String)) (r : Row) : Row :=
  pairs.filterMap (fun p => (r.lookup p.1).map (fun v => (p.2, v)))

/-- `ForecastCombinedTransformer.transform` (src/transformers.py:306-353):
filter both inputs by city, short-circuit when either is empty, inner-join on
(date, city), select and rename, then append the three computed columns. -/
def ForecastCombinedTransformer.transform (weather air_quality : DF)
    (city : Option String) : DF :=
  let w := filterCity weather city
  let a := filterCity air_quality city
  if w.rows.isEmpty || a.rows.isEmpty then ⟨forecastCombinedCols, []⟩
  else
    let rows := (innerMerge w a).map (selectRename combinedSelect)
    let rows := rows.map (fun r =>
      setCell r "health_alert"
        (.str (calculate_health_alert (cellNum r "aqi_simplified") (cellNum r "temp_avg"))))
    let rows := rows.map (fun r =>
      setCell r "allergy_risk"
        (.str (calculate_allergy_risk (cellNum r "pm2_5_avg") (cellNum r "pm10_avg")
          (cellNum r "avg_windspeed"))))
    let rows := rows.map (fun r =>
      setCell r "outdoor_score"
        (.num ((calculate_outdoor_score (cellNum r "aqi_simplified") (cellNum r "temp_avg")
          (cellNum r "total_precipitation") (cellNum r "avg_windspeed") : ℤ) : ℚ)))
    ⟨forecastCombinedCols, rows⟩

/-! ## Orchestrator (`src/pipelines.py`) -/

/-- `if not df.empty: loader.merge_upsert(location, df, ...)` — the load call
the silver/gold pipelines make for one transformer result. -/
def guardLoad (location : String) (df : DF) : List (String × DF) :=
  if df.rows.isEmpty then [] else [(location, df)]

/-- The body of `run_transformation_silver_pipeline`'s per-city loop
(src/pipelines.py:99-140): run the four silver transformers on the bronze
frames and record, in order, the merge-upsert calls that are actually made. -/
def run_transformation_silver_city (gh : ℚ → ℚ → String)
    (historical air_quality forecast : DF) (city : String) : List (String × DF) :=
  guardLoad "weather_summary" (WeatherSummaryTransformer.transform gh historical (some city))
  ++ guardLoad "air_quality_daily" (AirQualityDailyTransformer.transform gh air_quality (some city))
  ++ guardLoad "weather_forecast" (WeatherForecastTransformer.transform gh forecast (some city))
  ++ guardLoad "hourly_historical_analysis"
      (HourlyHistoricalAnalysisTransformer.transform historical (some city))

/-- The body of `run_transformation_gold_pipeline`'s per-city loop
(src/pipelines.py:155-166). -/
def run_transformation_gold_city (weather_forecast air_quality_daily : DF)
    (city : String) : List (String × DF) :=
  guardLoad "forecast_combined"
    (ForecastCombinedTransformer.transform weather_forecast air_quality_daily (some city))

/-- A one-row air-quality bronze batch (pm2_5 = 50) used as a concrete input
for exercising `AirQualityDailyTransformer.transform`. -/
def aqInput : DF :=
  ⟨["time", "city", "pm10", "pm2_5", "carbon_monoxide", "station_coordinates",
    "date_retrieved"],
   [[("time", .str "2024-01-01 00:00"), ("city", .str "cordoba"), ("pm10", .num 10),
     ("pm2_5", .num 50), ("carbon_monoxide", .num 1),
     ("station_coordinates", .coords (-31) (-64)), ("date_retrieved", .str "2024-01-01")]]⟩

/-! ## Helper lemmas about `setTable` -/

theorem lookup_setTable (ts : TableStore) (path : String) (t : LTable) :
    (setTable ts path t).lookup path = some t := by
  induction ts with
  | nil => simp [setTable, List.lookup]
  | cons e ts ih =>
    by_cases h : e.1 = path
    · simp [setTable, h, List.lookup]
    · simp only [setTable, if_neg h, List.lookup]
      have hb : (path == e.1) = false := beq_false_of_ne (fun hh => h hh.symm)
      simp [hb, ih]

theorem setTable_setTable (ts : TableStore) (path : String) (a b : LTable) :
    setTable (setTable ts path a) path b = setTable ts path b := by
  induction ts with
  | nil => simp [setTable]
  | cons e ts ih =>
    by_cases h : e.1 = path
    · simp [setTable, h]
    · simp [setTable, h, ih]

/-! ## Helper lemmas about `setCell`, `guardLoad` and the string model -/

theorem lookup_setCell_self (r : Row) (c : String) (v : Value) :
    (setCell r c v).lookup c = some v := by
  induction r with
  | nil => simp [setCell, List.lookup]
  | cons p r ih =>
    by_cases h : p.1 = c
    · simp [setCell, h, List.lookup]
    · simp only [setCell, if_neg h, List.lookup]
      have hb : (c == p.1) = false := beq_false_of_ne (fun hh => h hh.symm)
      simp [hb, ih]

theorem lookup_setCell_ne (r : Row) (c c' : String) (v : Value) (h : c ≠ c') :
    (setCell r c v).lookup c' = r.lookup c' := by
  induction r with
  | nil =>
    have hb : (c' == c) = false := beq_false_of_ne (fun hh => h hh.symm)
    simp [setCell, List.lookup, hb]
  | cons p r ih =>
    by_cases hp : p.1 = c
    · have hb : (c' == c) = false := beq_false_of_ne (fun hh => h hh.symm)
      have hb' : (c' == p.1) = false := by rw [hp]; exact hb
      simp [setCell, hp, List.lookup, hb, hb']
    · simp only [setCell, if_neg hp, List.lookup]
      cases hcp : (c' == p.1) <;> simp [ih]

theorem mem_guardLoad (location : String) (df : DF) (p : String × DF)
    (hp : p ∈ guardLoad location df) : (p.2).rows ≠ [] := by
  unfold guardLoad at hp
  by_cases h : df.rows.isEmpty
  · simp [h] at hp
  · simp [h] at hp
    subst hp
    intro hnil
    rw [hnil] at h
    simp at h

theorem pyIsSpace_pyLowerChar (n : ℕ) : pyIsSpace (pyLowerChar n) = pyIsSpace n := by
  unfold pyLowerChar
  split
  · rename_i h
    obtain ⟨h1, _⟩ := h
    have hl : pyIsSpace (n + 32) = false := by
      simp only [pyIsSpace, Bool.or_eq_false_iff, beq_eq_false_iff_ne, ne_eq]
      omega
    have hr : pyIsSpace n = false := by
      simp only [pyIsSpace, Bool.or_eq_false_iff, beq_eq_false_iff_ne, ne_eq]
      omega
    rw [hl, hr]
  · rfl

theorem pyStrip_pyLower (s : List ℕ) : pyStrip (pyLower s) = pyLower (pyStrip s) := by
  have hpf : (pyIsSpace ∘ pyLowerChar) = pyIsSpace := funext pyIsSpace_pyLowerChar
  unfold pyStrip pyLower
  rw [List.dropWhile_map, hpf, ← List.map_reverse, List.dropWhile_map, hpf, ← List.map_reverse]

/-! ## Claims about the load strategies -/

/-- C2: for every call to merge-upsert, if the target table does not exist, or
the store's merge fails with any exception whatsoever, the strategy falls back
to a fresh, unconditioned write of the entire batch at the resolved path; when
the merge succeeds, no such unconditioned write occurs. -/
theorem C2_merge_upsert_fallback (tables : TableStore) (root location : String)
    (data : LTable) (predicate : String) (partition_by : List String)
    (storeMerge : LTable → LTable → String → Except String LTable) :
    (tables.lookup (root ++ "/" ++ location) = none →
       merge_upsert tables root location data predicate partition_by storeMerge =
         [.unconditionedWrite (root ++ "/" ++ location) data partition_by]) ∧
    (∀ tgt err, tables.lookup (root ++ "/" ++ location) = some tgt →
       storeMerge tgt data predicate = .error err →
       merge_upsert tables root location data predicate partition_by storeMerge =
         [.unconditionedWrite (root ++ "/" ++ location) data partition_by]) ∧
    (∀ tgt res, tables.lookup (root ++ "/" ++ location) = some tgt →
       storeMerge tgt data predicate = .ok res →
       merge_upsert tables root location data predicate partition_by storeMerge =
         [.mergeExecuted (root ++ "/" ++ location) predicate]) := by
  refine ⟨fun h => ?_, fun tgt err h hm => ?_, fun tgt res h hm => ?_⟩
  · simp [merge_upsert, h]
  · simp [merge_upsert, h, hm]
  · simp [merge_upsert, h, hm]

/-- C2 witness: with an empty store (so the table is missing) the loader does
exactly one unconditioned write of the batch. -/
theorem C2_merge_upsert_fallback_witness :
    merge_upsert [] "out" "t" [] "p" ["city"] (fun _ _ _ => Except.ok []) =
      [.unconditionedWrite ("out" ++ "/" ++ "t") [] ["city"]] :=
  (C2_merge_upsert_fallback [] "out" "t" [] "p" ["city"] (fun _ _ _ => Except.ok [])).1 rfl

/-- C3: delete-insert takes `filter_value` from the batch's first row; when the
table is missing the append creates it holding exactly the batch; when it
exists, the rows whose `filter_col` equals `filter_value` are deleted exactly
when some existing row matches (nothing is deleted otherwise) and the full
batch is appended in every case. -/
theorem C3_delete_insert_behavior (tables : TableStore) (root location : String)
    (data : LTable) (filter_col : String) (r0 : LRow) (v : String)
    (hhead : data.head? = some r0) (hcell : r0.lookup filter_col = some v) :
    (tables.lookup (root ++ "/" ++ location) = none →
       delete_insert tables root location data filter_col =
         .ok (setTable tables (root ++ "/" ++ location) data)) ∧
    (∀ tgt, tables.lookup (root ++ "/" ++ location) = some tgt →
       delete_insert tables root location data filter_col =
         .ok (setTable tables (root ++ "/" ++ location)
           ((if tgt.any (fun r => r.lookup filter_col == some v) then
               tgt.filter (fun r => ! (r.lookup filter_col == some v))
             else tgt) ++ data))) := by
  constructor
  · intro h
    simp [delete_insert, hhead, hcell, h]
  · intro tgt h
    by_cases hany : tgt.any (fun r => r.lookup filter_col == some v)
    · simp [delete_insert, hhead, hcell, h, hany, lookup_setTable, setTable_setTable]
    · simp [delete_insert, hhead, hcell, h, hany]

/-- C3 witness: a concrete two-row table keyed by `city`; the matching `city=a`
row is deleted and the one-row batch is appended after the remaining row. -/
theorem C3_delete_insert_behavior_witness :
    delete_insert [("out/t", [[("city", "a")], [("city", "b")]])] "out" "t"
        [[("city", "a"), ("x", "1")]] "city" =
      .ok [("out/t", [[("city", "b")], [("city", "a"), ("x", "1")]])] := by
  have h := (C3_delete_insert_behavior [("out/t", [[("city", "a")], [("city", "b")]])]
    "out" "t" [[("city", "a"), ("x", "1")]] "city" [("city", "a"), ("x", "1")] "a"
    rfl rfl).2 [[("city", "a")], [("city", "b")]] rfl
  exact h.trans (by rfl)

/-- C1: the claim says a `partition_by` set not contained in the batch's
columns must fail with `InvalidPartitionSpec` and perform no write.  The code
instead tests column-set EQUALITY, so the call below — whose `partition_by`
contains the column `region` absent from the batch — passes both validations
and hands the store an overwrite write call. -/
theorem C1_insert_overwrite_misses_containment_check :
    (["city", "region"].all (fun c => ["city", "temp"].contains c)) = false ∧
    insert_overwrite "./out/bronze" "forecast" ["city", "temp"]
        [[("city", "cordoba"), ("temp", "20")]] ["city", "region"] "city" =
      .ok ⟨"./out/bronze" ++ "/" ++ "forecast", "overwrite", ["city", "region"],
        ("city", "cordoba"), [[("city", "cordoba"), ("temp", "20")]]⟩ :=
  ⟨rfl, rfl⟩

/-! ## Claims about the aggregation engine's derived fields -/

/-- C5: every output row of the air-quality daily aggregation whose
`pm2_5_avg` is a (non-null) number `q` carries
`aqi_simplified = min(100, (q / 25.0) * 100)`; the lambda sends 25.0 to 100 and
clamps 50.0 to 100 rather than 200. -/
theorem C5_aqi_simplified :
    (∀ (gh : ℚ → ℚ → String) (air : DF) (city : Option String) (r : Row) (q : ℚ),
       r ∈ (AirQualityDailyTransformer.transform gh air city).rows →
       r.lookup "pm2_5_avg" = some (.num q) →
       r.lookup "aqi_simplified" = some (.num (min 100 (q / 25 * 100)))) ∧
    aqiSimplifiedOfPm25 (some 25) = some 100 ∧
    aqiSimplifiedOfPm25 (some 50) = some 100 ∧
    aqiSimplifiedOfPm25 none = none := by
  refine ⟨?_, by norm_num [aqiSimplifiedOfPm25], by norm_num [aqiSimplifiedOfPm25], rfl⟩
  intro gh air city r q hmem hq
  unfold AirQualityDailyTransformer.transform at hmem
  by_cases hemp : (filterCity air city).rows.isEmpty
  · simp [hemp] at hmem
  · simp only [hemp, Bool.false_eq_true, if_false] at hmem
    rcases List.mem_map.mp hmem with ⟨r0, _, rfl⟩
    have hpm : r0.lookup "pm2_5_avg" = some (.num q) := by
      rwa [lookup_setCell_ne _ _ _ _ (by decide)] at hq
    rw [lookup_setCell_self]
    unfold cellD
    rw [hpm]
    rfl

/-- C5 witness: on a one-row air-quality batch with `pm2_5 = 50` the single
output row carries `aqi_simplified = 100` (clamped, not 200). -/
theorem C5_aqi_simplified_witness :
    ((AirQualityDailyTransformer.transform (fun _ _ => "g") aqInput
        (some "cordoba")).rows.getD 0 []).lookup "aqi_simplified" = some (.num 100) := by
  have hmem : ((AirQualityDailyTransformer.transform (fun _ _ => "g") aqInput
      (some "cordoba")).rows.getD 0 []) ∈
      (AirQualityDailyTransformer.transform (fun _ _ => "g") aqInput (some "cordoba")).rows :=
    List.mem_singleton.mpr rfl
  have h50 : qlistMean [(50 : ℚ)] = 50 := by norm_num [qlistMean, qlistSum]
  have hq : ((AirQualityDailyTransformer.transform (fun _ _ => "g") aqInput
      (some "cordoba")).rows.getD 0 []).lookup "pm2_5_avg" = some (.num 50) :=
    calc ((AirQualityDailyTransformer.transform (fun _ _ => "g") aqInput
        (some "cordoba")).rows.getD 0 []).lookup "pm2_5_avg"
        = some (.num (qlistMean [(50 : ℚ)])) := rfl
      _ = some (.num 50) := by rw [h50]
  exact (C5_aqi_simplified.1 (fun _ _ => "g") aqInput (some "cordoba") _ 50 hmem hq).trans
    (by norm_num)

/-- C6: the health-alert computation matches the spec's threshold table exactly,
and in particular aqi = 80 gives HIGH_ALERT for every temperature, aqi = 60 with
temp = 32 gives MODERATE_ALERT, and aqi = 10 with temp = 20 gives GOOD. -/
theorem C6_health_alert :
    (∀ aqi temp : ℚ, calculate_health_alert aqi temp = healthAlertSpec aqi temp) ∧
    (∀ temp : ℚ, calculate_health_alert 80 temp = "HIGH_ALERT") ∧
    calculate_health_alert 60 32 = "MODERATE_ALERT" ∧
    calculate_health_alert 10 20 = "GOOD" := by
  refine ⟨fun aqi temp => rfl, fun temp => ?_, ?_, ?_⟩
  · unfold calculate_health_alert
    rw [if_pos (by norm_num)]
  · norm_num [calculate_health_alert]
  · norm_num [calculate_health_alert]

/-- C7: the outdoor score equals the spec's single clamped expression (the four
penalties subtracted from 100, truncated to an integer, clamped to [0, 100]),
it always lies in [0, 100], and the two boundary cases hold: a 30-degree day
with no AQI, rain or wind scores 100, and raising the temperature to 40 lowers
the score by exactly 20. -/
theorem C7_outdoor_score :
    (∀ a t p w : ℚ, calculate_outdoor_score a t p w = outdoorScoreSpec a t p w) ∧
    (∀ a t p w : ℚ,
       0 ≤ calculate_outdoor_score a t p w ∧ calculate_outdoor_score a t p w ≤ 100) ∧
    calculate_outdoor_score 0 30 0 0 = 100 ∧
    calculate_outdoor_score 0 40 0 0 = calculate_outdoor_score 0 30 0 0 - 20 := by
  refine ⟨fun a t p w => ?_, fun a t p w => ⟨?_, ?_⟩, ?_, ?_⟩
  · simp only [calculate_outdoor_score, outdoorScoreSpec]
    split_ifs <;> (congr 3 <;> ring)
  · simp only [calculate_outdoor_score]
    exact le_max_left _ _
  · simp only [calculate_outdoor_score]
    exact max_le (by norm_num) (min_le_left _ _)
  · norm_num [calculate_outdoor_score, pyTrunc]
  · norm_num [calculate_outdoor_score, pyTrunc]

/-- C8: the allergy-risk computation matches the spec's threshold table
exactly: HIGH when pm10 > 50 and wind > 20, else MODERATE when pm2_5 > 15 or
(pm10 > 30 and wind > 10), else LOW. -/
theorem C8_allergy_risk :
    (∀ pm25 pm10 wind : ℚ,
       calculate_allergy_risk pm25 pm10 wind = allergyRiskSpec pm25 pm10 wind) ∧
    calculate_allergy_risk 0 60 25 = "HIGH" ∧
    calculate_allergy_risk 20 0 0 = "MODERATE" ∧
    calculate_allergy_risk 0 40 15 = "MODERATE" ∧
    calculate_allergy_risk 10 30 10 = "LOW" := by
  refine ⟨fun pm25 pm10 wind => rfl, ?_, ?_, ?_, ?_⟩ <;> decide

/-- C4: every aggregator returns the zero-row frame with exactly its documented
output schema when its input after the optional city filter has no rows
(for the combined transformer: when either filtered input is empty), and the
silver and gold orchestrator loops never emit a load call whose data frame is
empty. -/
theorem C4_empty_input_short_circuit :
    (∀ (gh : ℚ → ℚ → String) (input : DF) (city : Option String),
       (filterCity input city).rows = [] →
       WeatherSummaryTransformer.transform gh input city = ⟨weatherSummaryCols, []⟩) ∧
    (∀ (gh : ℚ → ℚ → String) (input : DF) (city : Option String),
       (filterCity input city).rows = [] →
       AirQualityDailyTransformer.transform gh input city = ⟨airQualityDailyCols, []⟩) ∧
    (∀ (gh : ℚ → ℚ → String) (input : DF) (city : Option String),
       (filterCity input city).rows = [] →
       WeatherForecastTransformer.transform gh input city = ⟨weatherSummaryCols, []⟩) ∧
    (∀ (input : DF) (city : Option String),
       (filterCity input city).rows = [] →
       HourlyHistoricalAnalysisTransformer.transform input city = ⟨hourlyCols, []⟩) ∧
    (∀ (weather air : DF) (city : Option String),
       (filterCity weather city).rows = [] ∨ (filterCity air city).rows = [] →
       ForecastCombinedTransformer.transform weather air city = ⟨forecastCombinedCols, []⟩) ∧
    (∀ (gh : ℚ → ℚ → String) (historical air forecast : DF) (city : String)
       (p : String × DF),
       p ∈ run_transformation_silver_city gh historical air forecast city →
       (p.2).rows ≠ []) ∧
    (∀ (weather air : DF) (city : String) (p : String × DF),
       p ∈ run_transformation_gold_city weather air city → (p.2).rows ≠ []) := by
  refine ⟨?_, ?_, ?_, ?_, ?_, ?_, ?_⟩
  · intro gh input city h
    simp [WeatherSummaryTransformer.transform, h]
  · intro gh input city h
    simp [AirQualityDailyTransformer.transform, h]
  · intro gh input city h
    simp [WeatherForecastTransformer.transform, h]
  · intro input city h
    simp [HourlyHistoricalAnalysisTransformer.transform, h]
  · intro weather air city h
    rcases h with h | h <;> simp [ForecastCombinedTransformer.transform, h]
  · intro gh historical air forecast city p hp
    unfold run_transformation_silver_city at hp
    rcases List.mem_append.mp hp with hp' | hp'
    · rcases List.mem_append.mp hp' with hp'' | hp''
      · rcases List.mem_append.mp hp'' with hp3 | hp3
        · exact mem_guardLoad _ _ _ hp3
        · exact mem_guardLoad _ _ _ hp3
      · exact mem_guardLoad _ _ _ hp''
    · exact mem_guardLoad _ _ _ hp'
  · intro weather air city p hp
    exact mem_guardLoad _ _ _ hp

/-- C4 witness: with empty bronze inputs each transformer returns its
schema-correct empty frame and the silver loop performs no load at all. -/
theorem C4_empty_input_short_circuit_witness :
    WeatherSummaryTransformer.transform (fun _ _ => "g") ⟨["city"], []⟩ (some "cordoba") =
      ⟨weatherSummaryCols, []⟩ ∧
    ForecastCombinedTransformer.transform ⟨["city"], []⟩ ⟨["city"], []⟩ (some "cordoba") =
      ⟨forecastCombinedCols, []⟩ :=
  ⟨(C4_empty_input_short_circuit.1 (fun _ _ => "g") ⟨["city"], []⟩ (some "cordoba") rfl),
   (C4_empty_input_short_circuit.2.2.2.2.1 ⟨["city"], []⟩ ⟨["city"], []⟩ (some "cordoba")
     (Or.inl rfl))⟩

/-! ## Claims about the extractor constructor and the city registry -/

/-- C9: constructing a `HistoricalExtractor` with `start_date > end_date`
raises `ValueError` before the date request parameters are set (the request
parameters are untouched), and for every pair with `start_date ≤ end_date` the
constructor succeeds and records both dates. -/
theorem C9_historical_date_guard :
    (∀ (ch : HttpChannels) (s e : ℤ) (lon lat : ℚ), e < s →
       (HistoricalExtractor.init ch s e lon lat).2.isSome = true ∧
       (HistoricalExtractor.init ch s e lon lat).1.requestParams = ch.requestParams) ∧
    (∀ (ch : HttpChannels) (s e : ℤ) (lon lat : ℚ), s ≤ e →
       (HistoricalExtractor.init ch s e lon lat).2 = none ∧
       (HistoricalExtractor.init ch s e lon lat).1.requestParams =
         setParam (setParam ch.requestParams "start_date" s) "end_date" e) := by
  constructor
  · intro ch s e lon lat h
    have hgt : s > e := h
    constructor <;> simp [HistoricalExtractor.init, BaseExractor.init, hgt]
  · intro ch s e lon lat h
    have hngt : ¬ s > e := not_lt.mpr h
    constructor <;> simp [HistoricalExtractor.init, BaseExractor.init, hngt]

/-- C9 witness: at `start = 5 > 3 = end` the constructor fails with the request
parameters untouched; at `start = 3 ≤ 5 = end` it succeeds. -/
theorem C9_historical_date_guard_witness :
    ((HistoricalExtractor.init ⟨[], []⟩ 5 3 0 0).2.isSome = true ∧
     (HistoricalExtractor.init ⟨[], []⟩ 5 3 0 0).1.requestParams = []) ∧
    (HistoricalExtractor.init ⟨[], []⟩ 3 5 0 0).2 = none :=
  ⟨C9_historical_date_guard.1 ⟨[], []⟩ 5 3 0 0 (by norm_num),
   (C9_historical_date_guard.2 ⟨[], []⟩ 3 5 0 0 (by norm_num)).1⟩

/-- C10: city-coordinate resolution first lowercases, then strips the name, so
it equals the registry lookup of the normalized form in either operation order;
`"  Cordoba "` resolves exactly like `"cordoba"` (to Cordoba's coordinates),
and every name whose normalized form is not registered fails with a key error
(modelled as `none`). -/
theorem C10_city_coordinates_normalization :
    (∀ s : List ℕ,
       get_city_coordinates s = CITIES_COORDINATES_MAP.lookup (pyLower (pyStrip s))) ∧
    get_city_coordinates (strCodes "  Cordoba ") = get_city_coordinates (strCodes "cordoba") ∧
    get_city_coordinates (strCodes "cordoba") =
      some ⟨-64181056/1000000, -31413500/1000000⟩ ∧
    (∀ s : List ℕ, CITIES_COORDINATES_MAP.lookup (pyLower (pyStrip s)) = none →
       get_city_coordinates s = none) := by
  have h1 : ∀ s : List ℕ,
      get_city_coordinates s = CITIES_COORDINATES_MAP.lookup (pyLower (pyStrip s)) := by
    intro s
    unfold get_city_coordinates
    rw [pyStrip_pyLower]
  refine ⟨h1, ?_, ?_, ?_⟩
  · rfl
  · rfl
  · intro s h
    rw [h1 s]
    exact h

/-- C10 witness: an unregistered city name resolves to a key error. -/
theorem C10_city_coordinates_normalization_witness :
    get_city_coordinates (strCodes "london") = none :=
  C10_city_coordinates_normalization.2.2.2 (strCodes "london") (by decide)
